import Mathlib

/-!
Verification of the ember-firmware event-dispatch fragment.

The embedding follows the two source files of the repository:
`src/C++/TerminalUI.cpp` (the terminal status reporter's callback) and
`src/gem/include/EventHandler.h` (the handler's class declaration).
Enumerations and helper tables that live in headers absent from the
repository fragment (`PrinterStatus.h`, `MessageStrings.h`, `Event.h`) are
modelled from the specification, as marked in their doc comments.
-/

/-- Modelled from the spec: the transition marker of a printer-status
Payload (entering / leaving / steady); `PrinterStatus.h` is not in the
repository fragment.  `TerminalUI.cpp` compares `_change` against the
enumerators `Entering` and `Leaving`. -/
inductive StateChange
  | NoChange
  | Entering
  | Leaving
deriving DecidableEq, Repr

/-- Modelled from the spec: the optional sub-state identifier of a
printer-status Payload; `PrinterStatus.h` is not in the repository
fragment.  `TerminalUI.cpp` compares `_UISubState` against the sentinel
`NoUISubState`. -/
inductive UISubState
  | NoUISubState
  | Downloading
  | Calibrating
deriving DecidableEq, Repr

/-- Modelled from the spec: the print-engine state identifier of a
printer-status Payload; `PrinterStatus.h` is not in the repository
fragment.  The spec's scenarios use the state named "Printing". -/
inductive PrintEngineState
  | Printing
  | Home
  | Idle
  | Paused
deriving DecidableEq, Repr

/-- Modelled from the spec: the `STATE_NAME` lookup of `MessageStrings.h`
(not in the repository fragment), mapping a state to its display name. -/
def STATE_NAME : PrintEngineState → String
  | .Printing => "Printing"
  | .Home => "Home"
  | .Idle => "Idle"
  | .Paused => "Paused"

/-- Modelled from the spec: the `SUBSTATE_NAME` lookup of
`MessageStrings.h` (not in the repository fragment), mapping a sub-state
to its display name.  `TerminalUI.cpp` only consults it for sub-states
other than `NoUISubState`. -/
def SUBSTATE_NAME : UISubState → String
  | .NoUISubState => ""
  | .Downloading => "Downloading"
  | .Calibrating => "Calibrating"

/-- The printer-status Payload, with the fields `TerminalUI.cpp` reads:
`_state`, `_UISubState`, `_change`, `_currentLayer`, `_numLayers`,
`_estimatedSecondsRemaining`. -/
structure PrinterStatus where
  _state : PrintEngineState
  _UISubState : UISubState
  _change : StateChange
  _currentLayer : Int
  _numLayers : Int
  _estimatedSecondsRemaining : Int
deriving DecidableEq, Repr

/-- Modelled from the spec: the closed `EventType` enumeration of
`Event.h` (not in the repository fragment); the spec names door-sensor,
motor-fault, button-press, stdin-input and printer-status sources. -/
inductive EventType
  | DoorSensor
  | MotorFault
  | ButtonPress
  | StdinInput
  | PrinterStatusUpdate
deriving DecidableEq, Repr

/-- The numeric value of an `EventType`, as passed to the logger by the
`default` branch of `TerminalUI::Callback`. -/
def EventType.toNat : EventType → Nat
  | .DoorSensor => 0
  | .MotorFault => 1
  | .ButtonPress => 2
  | .StdinInput => 3
  | .PrinterStatusUpdate => 4

/-- The syslog severity used by the `default` branch of
`TerminalUI::Callback`. -/
def LOG_WARNING : Nat := 4

/-- Modelled from the spec: the `UnexpectedEvent` message of
`MessageStrings.h` (not in the repository fragment). -/
def ERR_MSG_UnexpectedEvent : String := "unexpected event type"

/-- One call into the logging collaborator, recording the arguments of
`Logger::LogError(severity, errno, message, value)`. -/
structure LogEntry where
  severity : Nat
  errnum : Int
  message : String
  value : Nat
deriving DecidableEq, Repr

/-- The observable effects of one `TerminalUI::Callback` invocation: the
text written to the standard status output stream and the sequence of
logger calls. -/
structure TerminalOutput where
  stdout : String
  log : List LogEntry
deriving DecidableEq, Repr

/-- Modelled from the spec: the `PRINTER_STATUS_FORMAT` of
`MessageStrings.h` (not in the repository fragment), rendering
"<currentLayer>/<numLayers>, <estimatedSecondsRemaining>s remaining"
from the three progress fields, as §6 of the spec states. -/
def PRINTER_STATUS_FORMAT (currentLayer numLayers secondsRemaining : Int) : String :=
  toString currentLayer ++ "/" ++ toString numLayers ++ ", " ++
    toString secondsRemaining ++ "s remaining"

namespace TerminalUI

/-- Shallow embedding of `TerminalUI::Callback` (src/C++/TerminalUI.cpp,
lines 20-54).  `data` is the Payload the `PrinterStatusUpdate` case casts
to `PrinterStatus*`; `errnoVal` is the ambient `errno` the `default`
branch forwards to the logger. -/
def Callback (eventType : EventType) (data : PrinterStatus) (errnoVal : Int) :
    TerminalOutput :=
  match eventType with
  | .PrinterStatusUpdate =>
    let change : String :=
      if data._change = .Entering then "entering "
      else if data._change = .Leaving then "leaving "
      else ""
    let substate : String :=
      if data._UISubState ≠ .NoUISubState then SUBSTATE_NAME data._UISubState
      else ""
    let head : String := change ++ STATE_NAME data._state ++ " " ++ substate
    let statusMsg : String :=
      if data._currentLayer ≠ 0 then
        PRINTER_STATUS_FORMAT data._currentLayer data._numLayers
          data._estimatedSecondsRemaining
      else ""
    { stdout := head ++ statusMsg ++ "\n", log := [] }
  | _ =>
    { stdout := "",
      log := [⟨LOG_WARNING, errnoVal, ERR_MSG_UnexpectedEvent, eventType.toNat⟩] }

end TerminalUI

/-- The transition word of the status line: "entering " for `Entering`,
"leaving " for `Leaving`, nothing otherwise. -/
def transitionWord : StateChange → String
  | .Entering => "entering "
  | .Leaving => "leaving "
  | .NoChange => ""

/-- The sub-state fragment of the status line: the sub-state name when a
sub-state is present, nothing otherwise. -/
def substateFragment (ps : PrinterStatus) : String :=
  match ps._UISubState with
  | .NoUISubState => ""
  | s => SUBSTATE_NAME s

/-- The progress fragment of the status line: present only when the
current layer is non-zero. -/
def progressFragment (ps : PrinterStatus) : String :=
  if ps._currentLayer = 0 then ""
  else PRINTER_STATUS_FORMAT ps._currentLayer ps._numLayers
    ps._estimatedSecondsRemaining

/-- The rendering claimed for a printer-status Payload, written from the
spec's words: transition word, then state name, then the sub-state name
only when a sub-state is present (nothing otherwise), then the progress
fragment only when the current layer is non-zero, terminated by a line
break.  Compared against the code's rendering below. -/
def claimedRender (ps : PrinterStatus) : String :=
  transitionWord ps._change ++ STATE_NAME ps._state ++
    substateFragment ps ++ progressFragment ps ++ "\n"

/-- The amended rendering: as `claimedRender`, but with a single space
separator after the state name, present whether or not a sub-state is. -/
def amendedRender (ps : PrinterStatus) : String :=
  transitionWord ps._change ++ STATE_NAME ps._state ++ " " ++
    substateFragment ps ++ progressFragment ps ++ "\n"

/-- The trace of one readiness notification handled by the dispatch
loop: how many times Interpret ran and which subscriber received which
payload, in order. -/
structure DispatchTrace (α : Type) where
  interpretCalls : Nat
  deliveries : List (Nat × α)

/-- Modelled from the spec: the body of the EventHandler dispatch loop is
not in the repository fragment (src/gem/include/EventHandler.h holds only
the class declaration).  Per §2 and §4.4 of the spec, on a readiness
notification for an event type the handler calls Interpret once on the
triggering Event and dispatches the resulting Payload synchronously to
every subscriber registered for that event type, in registration order.
Subscribers are identified by number; `subscribersFor` is the
SubscriptionRegistry lookup, `interpret` the Event's Interpret. -/
def handleReadiness {α : Type} (subscribersFor : EventType → List Nat)
    (interpret : EventType → α) (et : EventType) : DispatchTrace α :=
  { interpretCalls := 1
    deliveries := (subscribersFor et).map (fun s => (s, interpret et)) }

/-- The EventHandler life-cycle phases of §4.4 of the spec. -/
inductive HandlerPhase
  | Unconfigured
  | Configured
  | Running
  | Stopped
deriving DecidableEq, Repr

/-- One configured Event as Begin sees it: whether it is required and
whether its Arm (HardwareResource.Acquire) succeeds. -/
structure EventCfg where
  required : Bool
  armOk : Bool
deriving DecidableEq, Repr

/-- The outcome of Begin: whether it failed with StartupFailed, whether
the dispatch loop was started, the phase the handler is left in, the
resources acquired (in arming order, numbered by event position) and the
Release calls performed. -/
structure BeginResult where
  startupFailed : Bool
  loopStarted : Bool
  phase : HandlerPhase
  acquired : List Nat
  released : List Nat
deriving DecidableEq, Repr

/-- Modelled from the spec: the body of EventHandler::Begin is not in the
repository fragment.  Per §4.4, §4.1 and §8 of the spec, Begin arms each
configured Event in order; an optional Event that fails to arm is skipped;
the first required Event that fails to arm aborts the transition with
StartupFailed, starting no loop, leaving the handler in its
Configured/Stopped state, and releasing every resource acquired before
the failure (in reverse order, per the teardown convention of §4.4). -/
def beginFrom : List EventCfg → Nat → List Nat → BeginResult
  | [], _, held =>
    { startupFailed := false, loopStarted := true, phase := .Running,
      acquired := held, released := [] }
  | c :: rest, i, held =>
    if c.armOk then beginFrom rest (i + 1) (held ++ [i])
    else if c.required then
      { startupFailed := true, loopStarted := false, phase := .Configured,
        acquired := held, released := held.reverse }
    else beginFrom rest (i + 1) held

/-- EventHandler::Begin on a configuration, starting with nothing
acquired. -/
def EventHandler.Begin (cfgs : List EventCfg) : BeginResult :=
  beginFrom cfgs 0 []

/-- An Event's armed resource: the wait-able handle, or none when Arm
never succeeded or the Event was disarmed. -/
structure EventResource where
  handle : Option Nat
deriving DecidableEq, Repr

/-- Modelled from the spec: the body of Event::Arm is not in the
repository fragment.  Per §4.2 of the spec, Arm calls
HardwareResource.Acquire and records the resulting handle; on Acquire
failure (`none`) no handle is recorded. -/
def Event.Arm (e : EventResource) (acquireResult : Option Nat) : EventResource :=
  match acquireResult with
  | some h => { handle := some h }
  | none => e

/-- Modelled from the spec: the body of Event::Disarm is not in the
repository fragment.  Per §4.2 of the spec, Disarm calls
HardwareResource.Release and invalidates the handle, and is safe to call
when Arm never succeeded (a no-op).  The second component counts the
Release calls performed. -/
def Event.Disarm (e : EventResource) : EventResource × Nat :=
  match e.handle with
  | some _ => ({ handle := none }, 1)
  | none => ({ handle := none }, 0)

/-- Helper: the status line the callback writes, in spec-side vocabulary.
Shared by several claims below. -/
theorem callback_stdout_eq (ps : PrinterStatus) (errnoVal : Int) :
    (TerminalUI.Callback .PrinterStatusUpdate ps errnoVal).stdout =
      transitionWord ps._change ++ STATE_NAME ps._state ++ " " ++
        substateFragment ps ++ progressFragment ps ++ "\n" := by
  cases ps with
  | mk st sub ch cur num secs =>
    cases ch <;> cases sub <;>
      simp [TerminalUI.Callback, transitionWord, substateFragment,
        progressFragment, SUBSTATE_NAME, ite_not]

/-- Helper: the same status line, reassociated so that the transition
word stands immediately before the state name. -/
theorem callback_stdout_assoc (ps : PrinterStatus) (errnoVal : Int) :
    (TerminalUI.Callback .PrinterStatusUpdate ps errnoVal).stdout =
      transitionWord ps._change ++ (STATE_NAME ps._state ++
        (" " ++ substateFragment ps ++ progressFragment ps ++ "\n")) := by
  rw [callback_stdout_eq]
  simp [String.append_assoc]

/-- C1, counterexample: on the Payload (Printing, no sub-state, steady,
layer 0) the code writes "Printing \n" — with a trailing space before the
line break — while the claimed rendering, which places nothing after the
state name when no sub-state is present, is "Printing\n". -/
theorem C1_counterexample :
    (TerminalUI.Callback .PrinterStatusUpdate
        ⟨.Printing, .NoUISubState, .NoChange, 0, 0, 0⟩ 0).stdout ≠
      claimedRender ⟨.Printing, .NoUISubState, .NoChange, 0, 0, 0⟩ := by
  decide

/-- C1 (amended): for every printer-status Payload delivered to
`TerminalUI::Callback`, the text written to the standard status output
stream is exactly: the transition word, the state name, a single space
separator, the sub-state name when a sub-state is present (the bare
separator otherwise), then — only when the current layer is non-zero —
the progress fragment, terminated by a line break; and nothing is
logged. -/
theorem C1_rendering (ps : PrinterStatus) (errnoVal : Int) :
    (TerminalUI.Callback .PrinterStatusUpdate ps errnoVal).stdout =
      amendedRender ps ∧
    (TerminalUI.Callback .PrinterStatusUpdate ps errnoVal).log = [] := by
  refine ⟨?_, rfl⟩
  rw [callback_stdout_eq, amendedRender]

/-- C2: a printer-status Payload with current layer 0 renders without any
progress fragment; the Payload with current layer 3, 10 total layers and
42 estimated seconds remaining renders the progress fragment with exactly
those three values. -/
theorem C2_progress_gating :
    (∀ (ps : PrinterStatus) (errnoVal : Int), ps._currentLayer = 0 →
      (TerminalUI.Callback .PrinterStatusUpdate ps errnoVal).stdout =
        transitionWord ps._change ++ STATE_NAME ps._state ++ " " ++
          substateFragment ps ++ "\n") ∧
    (TerminalUI.Callback .PrinterStatusUpdate
        ⟨.Printing, .NoUISubState, .NoChange, 3, 10, 42⟩ 0).stdout =
      "Printing " ++ "3/10, 42s remaining" ++ "\n" := by
  constructor
  · intro ps errnoVal h
    rw [callback_stdout_eq, progressFragment, if_pos h]
    simp
  · decide

/-- C2, witness: instantiated at the steady Home Payload with current
layer 0. -/
theorem C2_progress_gating_witness :
    (TerminalUI.Callback .PrinterStatusUpdate
        ⟨.Home, .NoUISubState, .NoChange, 0, 0, 0⟩ 0).stdout =
      transitionWord .NoChange ++ STATE_NAME .Home ++ " " ++
        substateFragment ⟨.Home, .NoUISubState, .NoChange, 0, 0, 0⟩ ++ "\n" :=
  C2_progress_gating.1 ⟨.Home, .NoUISubState, .NoChange, 0, 0, 0⟩ 0 rfl

/-- C3: a transition marker of `Entering` renders "entering " immediately
before the state name, `Leaving` renders "leaving " there, and a steady
marker renders neither word — the state name opens the line. -/
theorem C3_transition_words (ps : PrinterStatus) (errnoVal : Int) :
    (ps._change = .Entering →
      ∃ rest, (TerminalUI.Callback .PrinterStatusUpdate ps errnoVal).stdout =
        "entering " ++ (STATE_NAME ps._state ++ rest)) ∧
    (ps._change = .Leaving →
      ∃ rest, (TerminalUI.Callback .PrinterStatusUpdate ps errnoVal).stdout =
        "leaving " ++ (STATE_NAME ps._state ++ rest)) ∧
    (ps._change = .NoChange →
      ∃ rest, (TerminalUI.Callback .PrinterStatusUpdate ps errnoVal).stdout =
        STATE_NAME ps._state ++ rest) := by
  refine
    ⟨fun h => ⟨" " ++ substateFragment ps ++ progressFragment ps ++ "\n", ?_⟩,
     fun h => ⟨" " ++ substateFragment ps ++ progressFragment ps ++ "\n", ?_⟩,
     fun h => ⟨" " ++ substateFragment ps ++ progressFragment ps ++ "\n", ?_⟩⟩ <;>
    rw [callback_stdout_assoc, h] <;> simp [transitionWord]

/-- C3, witness: the three markers exercised on concrete Payloads. -/
theorem C3_transition_words_witness :
    (∃ rest, (TerminalUI.Callback .PrinterStatusUpdate
        ⟨.Printing, .NoUISubState, .Entering, 0, 0, 0⟩ 0).stdout =
      "entering " ++ (STATE_NAME .Printing ++ rest)) ∧
    (∃ rest, (TerminalUI.Callback .PrinterStatusUpdate
        ⟨.Printing, .NoUISubState, .Leaving, 0, 0, 0⟩ 0).stdout =
      "leaving " ++ (STATE_NAME .Printing ++ rest)) ∧
    (∃ rest, (TerminalUI.Callback .PrinterStatusUpdate
        ⟨.Printing, .NoUISubState, .NoChange, 0, 0, 0⟩ 0).stdout =
      STATE_NAME .Printing ++ rest) :=
  ⟨(C3_transition_words ⟨.Printing, .NoUISubState, .Entering, 0, 0, 0⟩ 0).1 rfl,
   (C3_transition_words ⟨.Printing, .NoUISubState, .Leaving, 0, 0, 0⟩ 0).2.1 rfl,
   (C3_transition_words ⟨.Printing, .NoUISubState, .NoChange, 0, 0, 0⟩ 0).2.2 rfl⟩

/-- C4, counterexample: on the scenario Payload (Printing, no sub-state,
entering, layer 1 of 5, 120 s remaining) the rendered line is not the
bare concatenation "entering Printing" ++ "1/5, 120s remaining" ++ line
break — the code's unconditional sub-state separator puts a space between
the state name and the progress text. -/
theorem C4_counterexample :
    (TerminalUI.Callback .PrinterStatusUpdate
        ⟨.Printing, .NoUISubState, .Entering, 1, 5, 120⟩ 0).stdout ≠
      "entering Printing" ++ "1/5, 120s remaining" ++ "\n" := by
  decide

/-- C4 (amended): on the scenario Payload the callback renders exactly
one line, "entering Printing", a space, then the progress text
"1/5, 120s remaining", terminated by the line break, with nothing
logged. -/
theorem C4_scenario_line :
    (TerminalUI.Callback .PrinterStatusUpdate
        ⟨.Printing, .NoUISubState, .Entering, 1, 5, 120⟩ 0).stdout =
      "entering Printing" ++ " " ++ "1/5, 120s remaining" ++ "\n" ∧
    ((TerminalUI.Callback .PrinterStatusUpdate
        ⟨.Printing, .NoUISubState, .Entering, 1, 5, 120⟩ 0).stdout.toList.count
      '\n') = 1 ∧
    (TerminalUI.Callback .PrinterStatusUpdate
        ⟨.Printing, .NoUISubState, .Entering, 1, 5, 120⟩ 0).log = [] := by
  refine ⟨by decide, by decide, rfl⟩

/-- C5: on any event type other than `PrinterStatusUpdate`, the callback
makes exactly one logger call, at warning severity, carrying the
unexpected-event message and tagged with the numeric event type. -/
theorem C5_unexpected_event_logged (et : EventType) (ps : PrinterStatus)
    (errnoVal : Int) (h : et ≠ .PrinterStatusUpdate) :
    (TerminalUI.Callback et ps errnoVal).log =
      [⟨LOG_WARNING, errnoVal, ERR_MSG_UnexpectedEvent, et.toNat⟩] := by
  cases et <;> first | exact absurd rfl h | rfl

/-- C5, witness: instantiated at the door-sensor event type. -/
theorem C5_unexpected_event_logged_witness :
    (TerminalUI.Callback .DoorSensor
        ⟨.Home, .NoUISubState, .NoChange, 0, 0, 0⟩ 7).log =
      [⟨LOG_WARNING, 7, ERR_MSG_UnexpectedEvent, EventType.toNat .DoorSensor⟩] :=
  C5_unexpected_event_logged .DoorSensor
    ⟨.Home, .NoUISubState, .NoChange, 0, 0, 0⟩ 7 (by decide)

/-- C9: on any event type other than `PrinterStatusUpdate`, nothing is
written to the standard status output stream and the only observable
effect is the single logger call. -/
theorem C9_unrecognized_frame (et : EventType) (ps : PrinterStatus)
    (errnoVal : Int) (h : et ≠ .PrinterStatusUpdate) :
    (TerminalUI.Callback et ps errnoVal).stdout = "" ∧
    (TerminalUI.Callback et ps errnoVal).log.length = 1 := by
  cases et <;> first | exact absurd rfl h | exact ⟨rfl, rfl⟩

/-- C9, witness: instantiated at the stdin-input event type. -/
theorem C9_unrecognized_frame_witness :
    (TerminalUI.Callback .StdinInput
        ⟨.Idle, .NoUISubState, .NoChange, 0, 0, 0⟩ 0).stdout = "" ∧
    (TerminalUI.Callback .StdinInput
        ⟨.Idle, .NoUISubState, .NoChange, 0, 0, 0⟩ 0).log.length = 1 :=
  C9_unrecognized_frame .StdinInput
    ⟨.Idle, .NoUISubState, .NoChange, 0, 0, 0⟩ 0 (by decide)

/-- C10: the callback is deterministic — two invocations agreeing on the
event type and on the six Payload fields write identical text to the
status output stream, whatever the ambient `errno` is. -/
theorem C10_deterministic (et : EventType) (ps₁ ps₂ : PrinterStatus)
    (e₁ e₂ : Int)
    (h₁ : ps₁._state = ps₂._state)
    (h₂ : ps₁._UISubState = ps₂._UISubState)
    (h₃ : ps₁._change = ps₂._change)
    (h₄ : ps₁._currentLayer = ps₂._currentLayer)
    (h₅ : ps₁._numLayers = ps₂._numLayers)
    (h₆ : ps₁._estimatedSecondsRemaining = ps₂._estimatedSecondsRemaining) :
    (TerminalUI.Callback et ps₁ e₁).stdout =
      (TerminalUI.Callback et ps₂ e₂).stdout := by
  cases ps₁
  cases ps₂
  simp only at h₁ h₂ h₃ h₄ h₅ h₆
  subst h₁ h₂ h₃ h₄ h₅ h₆
  cases et <;> rfl

/-- C10, witness: two invocations with equal fields but different ambient
`errno` values produce the same text. -/
theorem C10_deterministic_witness :
    (TerminalUI.Callback .PrinterStatusUpdate
        ⟨.Printing, .Downloading, .Entering, 2, 9, 30⟩ 1).stdout =
      (TerminalUI.Callback .PrinterStatusUpdate
        ⟨.Printing, .Downloading, .Entering, 2, 9, 30⟩ 5).stdout :=
  C10_deterministic .PrinterStatusUpdate
    ⟨.Printing, .Downloading, .Entering, 2, 9, 30⟩
    ⟨.Printing, .Downloading, .Entering, 2, 9, 30⟩ 1 5 rfl rfl rfl rfl rfl rfl

/-- C6: handling one readiness notification calls Interpret exactly once
and delivers the payload to exactly the subscribers registered for that
event type, in registration order — a subscriber registered once receives
it exactly once, and a subscriber not registered for the type receives
nothing. -/
theorem C6_exactly_once_dispatch {α : Type} (subscribersFor : EventType → List Nat)
    (interpret : EventType → α) (et : EventType) (s : Nat) :
    (handleReadiness subscribersFor interpret et).interpretCalls = 1 ∧
    (handleReadiness subscribersFor interpret et).deliveries.map Prod.fst =
      subscribersFor et ∧
    (List.count s (subscribersFor et) = 1 →
      List.count s
        ((handleReadiness subscribersFor interpret et).deliveries.map Prod.fst) = 1) ∧
    (s ∉ subscribersFor et →
      ∀ p : α, (s, p) ∉ (handleReadiness subscribersFor interpret et).deliveries) := by
  have hmap : (handleReadiness subscribersFor interpret et).deliveries.map Prod.fst =
      subscribersFor et := by
    show List.map Prod.fst
        (List.map (fun s => (s, interpret et)) (subscribersFor et)) =
      subscribersFor et
    rw [List.map_map]
    exact List.map_id _
  refine ⟨rfl, hmap, ?_, ?_⟩
  · intro h
    rw [hmap]
    exact h
  · intro hs p hmem
    apply hs
    have : (s, p).1 ∈ (handleReadiness subscribersFor interpret et).deliveries.map
        Prod.fst := List.mem_map_of_mem Prod.fst hmem
    rwa [hmap] at this

/-- C6, witness: a registry with subscribers 3 and 7 on the
printer-status type; subscriber 5 is not registered. -/
theorem C6_exactly_once_dispatch_witness :
    (handleReadiness
        (fun et => if et = .PrinterStatusUpdate then [3, 7] else [])
        (fun _ => (0 : Nat)) .PrinterStatusUpdate).interpretCalls = 1 ∧
    (handleReadiness
        (fun et => if et = .PrinterStatusUpdate then [3, 7] else [])
        (fun _ => (0 : Nat)) .PrinterStatusUpdate).deliveries.map Prod.fst =
      (fun et => if et = .PrinterStatusUpdate then [3, 7] else [])
        EventType.PrinterStatusUpdate ∧
    (List.count 3 ((fun et => if et = .PrinterStatusUpdate then [3, 7] else [])
        EventType.PrinterStatusUpdate) = 1 →
      List.count 3
        ((handleReadiness
            (fun et => if et = .PrinterStatusUpdate then [3, 7] else [])
            (fun _ => (0 : Nat)) .PrinterStatusUpdate).deliveries.map Prod.fst) = 1) ∧
    (5 ∉ (fun et => if et = .PrinterStatusUpdate then [3, 7] else [])
        EventType.PrinterStatusUpdate →
      ∀ p : Nat, (5, p) ∉ (handleReadiness
          (fun et => if et = .PrinterStatusUpdate then [3, 7] else [])
          (fun _ => (0 : Nat)) .PrinterStatusUpdate).deliveries) := by
  have h3 := C6_exactly_once_dispatch
    (fun et => if et = .PrinterStatusUpdate then [3, 7] else [])
    (fun _ => (0 : Nat)) .PrinterStatusUpdate 3
  have h5 := C6_exactly_once_dispatch
    (fun et => if et = .PrinterStatusUpdate then [3, 7] else [])
    (fun _ => (0 : Nat)) .PrinterStatusUpdate 5
  exact ⟨h3.1, h3.2.1, h3.2.2.1, h5.2.2.2⟩

/-- Helper for C7: from any starting index and any held-resource list, a
configuration containing a required event that fails to arm makes
`beginFrom` fail with StartupFailed, start no loop, stay in the
Configured phase, and release exactly the acquired resources, in reverse
acquisition order. -/
theorem beginFrom_required_failure (cfgs : List EventCfg) :
    ∀ (i : Nat) (held : List Nat),
      (∃ c ∈ cfgs, c.required = true ∧ c.armOk = false) →
      ∃ h', beginFrom cfgs i held =
        { startupFailed := true, loopStarted := false, phase := .Configured,
          acquired := h', released := h'.reverse } := by
  induction cfgs with
  | nil =>
    intro i held h
    simp at h
  | cons c rest ih =>
    intro i held h
    by_cases hca : c.armOk
    · have hrest : ∃ d ∈ rest, d.required = true ∧ d.armOk = false := by
        rcases h with ⟨d, hd, hdr, hda⟩
        rcases List.mem_cons.1 hd with rfl | hd'
        · exact absurd hca (by simp [hda])
        · exact ⟨d, hd', hdr, hda⟩
      rw [beginFrom, if_pos hca]
      exact ih (i + 1) (held ++ [i]) hrest
    · by_cases hcr : c.required
      · refine ⟨held, ?_⟩
        rw [beginFrom, if_neg hca, if_pos hcr]
      · have hrest : ∃ d ∈ rest, d.required = true ∧ d.armOk = false := by
          rcases h with ⟨d, hd, hdr, hda⟩
          rcases List.mem_cons.1 hd with rfl | hd'
          · exact absurd hdr (by simpa using hcr)
          · exact ⟨d, hd', hdr, hda⟩
        rw [beginFrom, if_neg hca, if_neg hcr]
        exact ih (i + 1) held hrest

/-- C7: when any required Event fails to arm, Begin fails with
StartupFailed, no dispatch loop is started, the handler is left in the
Configured phase, and every resource acquired before the failure has been
released — released and acquired match exactly, so no partial arming
remains. -/
theorem C7_begin_required_failure (cfgs : List EventCfg)
    (h : ∃ c ∈ cfgs, c.required = true ∧ c.armOk = false) :
    (EventHandler.Begin cfgs).startupFailed = true ∧
    (EventHandler.Begin cfgs).loopStarted = false ∧
    (EventHandler.Begin cfgs).phase = .Configured ∧
    (EventHandler.Begin cfgs).released =
      (EventHandler.Begin cfgs).acquired.reverse ∧
    ∀ x ∈ (EventHandler.Begin cfgs).acquired,
      x ∈ (EventHandler.Begin cfgs).released := by
  obtain ⟨h', hr⟩ := beginFrom_required_failure cfgs 0 [] h
  rw [EventHandler.Begin, hr]
  refine ⟨rfl, rfl, rfl, rfl, ?_⟩
  intro x hx
  simpa using hx

/-- C7, witness: one optional event that fails to arm, one event that
arms, then a required event that fails to arm. -/
theorem C7_begin_required_failure_witness :
    (EventHandler.Begin
        [⟨false, false⟩, ⟨true, true⟩, ⟨true, false⟩]).startupFailed = true ∧
    (EventHandler.Begin
        [⟨false, false⟩, ⟨true, true⟩, ⟨true, false⟩]).loopStarted = false ∧
    (EventHandler.Begin
        [⟨false, false⟩, ⟨true, true⟩, ⟨true, false⟩]).phase = .Configured ∧
    (EventHandler.Begin [⟨false, false⟩, ⟨true, true⟩, ⟨true, false⟩]).released =
      (EventHandler.Begin
        [⟨false, false⟩, ⟨true, true⟩, ⟨true, false⟩]).acquired.reverse ∧
    ∀ x ∈ (EventHandler.Begin
        [⟨false, false⟩, ⟨true, true⟩, ⟨true, false⟩]).acquired,
      x ∈ (EventHandler.Begin
        [⟨false, false⟩, ⟨true, true⟩, ⟨true, false⟩]).released :=
  C7_begin_required_failure [⟨false, false⟩, ⟨true, true⟩, ⟨true, false⟩]
    ⟨⟨true, false⟩, by decide, rfl, rfl⟩

/-- C8: Disarm after a never-succeeded Arm performs no Release (a no-op);
a failed Arm leaves the event unchanged, so disarming after it behaves
exactly as disarming before it; any Disarm leaves the handle invalid,
performs at most one Release, and a second Disarm performs none — release
is idempotent and never doubled. -/
theorem C8_disarm_idempotent (e : EventResource) :
    (e.handle = none → Event.Disarm e = ({ handle := none }, 0)) ∧
    Event.Disarm (Event.Arm e none) = Event.Disarm e ∧
    (Event.Disarm e).1.handle = none ∧
    (Event.Disarm (Event.Disarm e).1).2 = 0 ∧
    (Event.Disarm e).2 ≤ 1 := by
  obtain ⟨h⟩ := e
  cases h <;>
    simp [Event.Arm, Event.Disarm]

/-- C8, witness: a never-armed event, disarmed. -/
theorem C8_disarm_idempotent_witness :
    Event.Disarm { handle := none } = ({ handle := none }, 0) :=
  (C8_disarm_idempotent { handle := none }).1 rfl
